import Mathlib

/-!
Shallow embedding of the gitlabtogithub migration tool
(src/metadata.py and src/repomigration.py) together with proofs about its
metadata reconciliation, mirror transfer, repository resolver, run ledger
and orchestrator logic.
-/

namespace GitlabToGithub

/-- GitLab label as listed by `gl_project.labels.list(get_all=True)` in
metadata.py; `description` may be absent (None). -/
structure GLLabel where
  name : String
  color : String
  description : Option String
deriving DecidableEq

/-- GitLab milestone as listed by `gl_project.milestones.list(get_all=True)`. -/
structure GLMilestone where
  title : String
  description : Option String
  state : String
deriving DecidableEq

/-- GitLab issue as listed by `gl_project.issues.list(get_all=True)`. -/
structure GLIssue where
  title : String
  description : Option String
  labels : List String
  state : String
deriving DecidableEq

/-- GitLab merge request as listed by
`gl_project.mergerequests.list(get_all=True)`. -/
structure GLMergeRequest where
  title : String
  description : Option String
  iid : Nat
  source_branch : String
  target_branch : String
  state : String
deriving DecidableEq

/-- The source-project data read by `migrate_metadata` in metadata.py. -/
structure GLProject where
  labels : List GLLabel
  milestones : List GLMilestone
  issues : List GLIssue
  mergerequests : List GLMergeRequest
deriving DecidableEq

/-- GitHub label as returned by `gh_repo.get_labels()`. -/
structure GHLabel where
  name : String
  color : String
  description : String
deriving DecidableEq

/-- GitHub milestone as returned by `gh_repo.get_milestones(state="all")`. -/
structure GHMilestone where
  title : String
  description : String
  state : String
deriving DecidableEq

/-- GitHub issue as returned by `gh_repo.get_issues(state="all")`. -/
structure GHIssue where
  title : String
  body : String
  labels : List String
  state : String
deriving DecidableEq

/-- GitHub pull request as returned by `gh_repo.get_pulls(state="all")`. -/
structure GHPull where
  title : String
  body : String
  head : String
  base : String
  state : String
deriving DecidableEq

/-- Destination repository state: the four entity listings that
`migrate_metadata` reads and extends, plus the set of git branches present
in the destination (which decides whether `create_pull` succeeds). -/
@[ext]
structure GHRepo where
  labels : List GHLabel
  milestones : List GHMilestone
  issues : List GHIssue
  pulls : List GHPull
  branches : List String
deriving DecidableEq

/-- Per-kind status dictionary returned by `migrate_metadata`
(metadata.py line 93 and lines 105, 119, 135, 156). -/
structure MigrationSummary where
  labels : String
  milestones : String
  issues : String
  merge_requests : String
deriving DecidableEq

/-- Embeds `label.color.replace("#", "")` (metadata.py line 102): Python
`str.replace` with empty replacement deletes every occurrence of the
pattern character, which on a one-character pattern is exactly a filter. -/
def stripMarker (s : String) : String :=
  String.mk (s.data.filter (fun c => c != '#'))

/-- The label built by `gh_repo.create_label(...)` (metadata.py lines
100-104): color has markers removed, description defaults to "". -/
def createLabel (l : GLLabel) : GHLabel :=
  { name := l.name
    color := stripMarker l.color
    description := l.description.getD "" }

/-- The milestone built by `gh_repo.create_milestone(...)` (metadata.py
lines 114-118): state is "open" if the source state is "active", else
"closed". -/
def createMilestone (ms : GLMilestone) : GHMilestone :=
  { title := ms.title
    description := ms.description.getD ""
    state := if ms.state = "active" then "open" else "closed" }

/-- The issue resulting from `gh_repo.create_issue(...)` (created open)
followed by `gh_issue.edit(state="closed")` when the source state is
"closed" (metadata.py lines 128-134); the create-then-edit pair is
collapsed into the resulting entity. -/
def createIssue (i : GLIssue) : GHIssue :=
  { title := i.title
    body := i.description.getD ""
    labels := i.labels
    state := if i.state = "closed" then "closed" else "open" }

/-- The pull request resulting from `gh_repo.create_pull(...)` followed by
`pr.edit(state="closed")` when the source state is "closed" or "merged"
(metadata.py lines 146-153). Modelled failure mode: `create_pull` raises
when the head or base branch does not exist in the destination repository;
the surrounding per-item try/except turns that into a skip, embedded here
as `none`. -/
def createPull (branches : List String) (mr : GLMergeRequest) : Option GHPull :=
  if mr.source_branch ∈ branches ∧ mr.target_branch ∈ branches then
    some
      { title := mr.title
        body := (mr.description.getD "") ++ "\n\nMigrated from GitLab MR #" ++ toString mr.iid
        head := mr.source_branch
        base := mr.target_branch
        state := if mr.state ∈ (["closed", "merged"] : List String) then "closed" else "open" }
  else
    none

/-- One iteration of the labels loop (metadata.py lines 98-104): skip when
the name is already in the `existing` listing, otherwise create. -/
def labelStep (existing : List String) (l : GLLabel) : Option GHLabel :=
  if l.name ∈ existing then none else some (createLabel l)

/-- One iteration of the milestones loop (metadata.py lines 112-118). -/
def milestoneStep (existing : List String) (ms : GLMilestone) : Option GHMilestone :=
  if ms.title ∈ existing then none else some (createMilestone ms)

/-- One iteration of the issues loop (metadata.py lines 126-134). -/
def issueStep (existing : List String) (i : GLIssue) : Option GHIssue :=
  if i.title ∈ existing then none else some (createIssue i)

/-- One iteration of the merge-request loop (metadata.py lines 142-155):
skip on title match, otherwise attempt creation, which may itself be
skipped per-item. -/
def pullStep (existing : List String) (branches : List String) (mr : GLMergeRequest) : Option GHPull :=
  if mr.title ∈ existing then none else createPull branches mr

/-- A creation loop of `migrate_metadata`: iterate the source listing,
appending each successfully created entity to the destination listing;
`none` means the item was skipped. -/
def createLoop {α β : Type} (step : α → Option β) : List α → List β → List β
  | [], acc => acc
  | x :: rest, acc =>
      match step x with
      | some y => createLoop step rest (acc ++ [y])
      | none => createLoop step rest acc

/-- Embeds `migrate_metadata(gl_project, gh_repo)` (metadata.py lines
91-160). For each of the four entity kinds, the existing destination keys
are listed once, then the source listing is walked and missing entities
are created. Destination API listing/creation calls are modelled as
succeeding; the one modelled failure is the per-item `create_pull` error
(missing branch), which the code catches and skips, so each group runs to
completion and reports "completed". -/
def migrate_metadata (p : GLProject) (r : GHRepo) : GHRepo × MigrationSummary :=
  let existingLabelNames := r.labels.map GHLabel.name
  let r1 : GHRepo := { r with labels := createLoop (labelStep existingLabelNames) p.labels r.labels }
  let existingMilestoneTitles := r1.milestones.map GHMilestone.title
  let r2 : GHRepo := { r1 with milestones := createLoop (milestoneStep existingMilestoneTitles) p.milestones r1.milestones }
  let existingIssueTitles := r2.issues.map GHIssue.title
  let r3 : GHRepo := { r2 with issues := createLoop (issueStep existingIssueTitles) p.issues r2.issues }
  let existingPullTitles := r3.pulls.map GHPull.title
  let r4 : GHRepo := { r3 with pulls := createLoop (pullStep existingPullTitles r3.branches) p.mergerequests r3.pulls }
  (r4, { labels := "completed", milestones := "completed", issues := "completed", merge_requests := "completed" })

/-- One git subprocess invocation made by `migrate_code`
(repomigration.py lines 105-135). -/
inductive GitCmd where
  | clone_mirror
  | remote_add
  | push_mirror
  | push_all
  | push_tags
deriving DecidableEq

/-- Whether a git invocation is a push. -/
def GitCmd.isPush : GitCmd → Bool
  | .push_mirror => true
  | .push_all => true
  | .push_tags => true
  | _ => false

/-- The command sequence `migrate_code` attempts: clone mirror, add the
github remote, then either one mirror push (force) or a branches push
followed by a tags push (repomigration.py lines 104-135). -/
def gitSequence (force : Bool) : List GitCmd :=
  [GitCmd.clone_mirror, GitCmd.remote_add] ++
    (if force then [GitCmd.push_mirror] else [GitCmd.push_all, GitCmd.push_tags])

/-- Runs the git commands in order with `check=True` semantics: each
command is invoked until one fails (`env c = false`, a non-zero exit
raising CalledProcessError); returns the invoked commands in order and
whether the whole sequence completed. -/
def runSteps (env : GitCmd → Bool) : List GitCmd → List GitCmd × Bool
  | [] => ([], true)
  | c :: rest =>
      if env c then
        ((c :: (runSteps env rest).1), (runSteps env rest).2)
      else
        ([c], false)

/-- Observable outcome of `migrate_code`: which git commands were invoked,
whether it returned normally (true) or raised (false), and whether the
temporary workspace directory still exists afterwards. -/
structure CodeResult where
  trace : List GitCmd
  ok : Bool
  tmpDirExists : Bool
deriving DecidableEq

/-- Embeds `migrate_code(gl_project, gh_repo, force)` (repomigration.py
lines 97-140): `tempfile.mkdtemp` creates the workspace, the git sequence
runs inside try, and the finally block `shutil.rmtree(tmp_dir,
ignore_errors=True)` removes the workspace on every exit path, whether the
try body returned or raised; hence `tmpDirExists` is false on both the
success and every failure path. -/
def migrate_code (env : GitCmd → Bool) (force : Bool) : CodeResult :=
  let result := runSteps env (gitSequence force)
  { trace := result.1, ok := result.2, tmpDirExists := false }

/-- The csv header row written by `write_migration_summary`
(repomigration.py lines 48-52). -/
def headerRow : List String :=
  ["GitLab Repo", "GitHub Repo", "Migration Status"]

/-- Embeds `write_migration_summary(path, gitlab_repo, github_repo,
status)` (repomigration.py lines 44-58). The file is modelled as
`Option (List (List String))`: `none` when the path does not exist yet.
The header is written exactly when `os.path.isfile(path)` is false at call
time, then one data row is appended. -/
def write_migration_summary (file : Option (List (List String)))
    (gitlab_repo github_repo status : String) : Option (List (List String)) :=
  match file with
  | none => some ([headerRow] ++ [[gitlab_repo, github_repo, status]])
  | some rows => some (rows ++ [[gitlab_repo, github_repo, status]])

/-- The data row a ledger entry produces. -/
def ledgerRow (e : String × String × String) : List String :=
  [e.1, e.2.1, e.2.2]

/-- N successive `write_migration_summary` calls on the same path, one per
entry (gitlab repo, github repo, status). -/
def appendAll (entries : List (String × String × String))
    (file : Option (List (List String))) : Option (List (List String)) :=
  entries.foldl (fun f e => write_migration_summary f e.1 e.2.1 e.2.2) file

/-- A parsed line of the mapping input file. `valid` records whether the
raw line contained the "::" separator (repomigration.py lines 200-205). -/
structure Mapping where
  valid : Bool
  gitlab_project_path : String
  github_target : String
deriving DecidableEq

/-- Outcomes of the external API calls made while processing one mapping:
whether the GitLab project fetch succeeds, whether the destination repo
lookup finds it, and whether the organization-scope creation, the
personal-account creation and the code migration succeed. -/
structure MappingEnv where
  glFetchOk : Bool
  ghRepoExists : Bool
  orgCreateOk : Bool
  userCreateOk : Bool
  migrateCodeOk : Bool
deriving DecidableEq

/-- The destination-repository API calls attempted while resolving or
creating the repo. -/
inductive RepoAttempt where
  | lookup
  | orgCreate
  | userCreate
deriving DecidableEq

/-- Scope under which the destination repository handle was obtained. -/
inductive RepoScope where
  | existing
  | organization
  | personal
deriving DecidableEq

/-- Embeds the destination-repo block of repomigration.py main (lines
216-228): try `gh.get_repo`; on GithubException try
`org.create_repo`; on GithubException fall back to `user.create_repo`.
The personal-account creation is not wrapped in any try, so its failure is
an uncaught exception, modelled as result `none`. Returns the attempt
sequence and the scope obtained. -/
def resolve_or_create (env : MappingEnv) : List RepoAttempt × Option RepoScope :=
  if env.ghRepoExists then
    ([RepoAttempt.lookup], some RepoScope.existing)
  else if env.orgCreateOk then
    ([RepoAttempt.lookup, RepoAttempt.orgCreate], some RepoScope.organization)
  else if env.userCreateOk then
    ([RepoAttempt.lookup, RepoAttempt.orgCreate, RepoAttempt.userCreate], some RepoScope.personal)
  else
    ([RepoAttempt.lookup, RepoAttempt.orgCreate, RepoAttempt.userCreate], none)

/-- Embeds the destination-repo block of metadata.py main (lines 249-257):
try `gh.get_repo`; on GithubException go straight to `user.create_repo`
under the personal account — no organization-scope attempt exists in this
variant, and the personal creation is again not wrapped in a try. -/
def resolve_or_create_metadata (env : MappingEnv) : List RepoAttempt × Option RepoScope :=
  if env.ghRepoExists then
    ([RepoAttempt.lookup], some RepoScope.existing)
  else if env.userCreateOk then
    ([RepoAttempt.lookup, RepoAttempt.userCreate], some RepoScope.personal)
  else
    ([RepoAttempt.lookup, RepoAttempt.userCreate], none)

/-- State threaded through the orchestrator loop: the summary csv file and
the gitlab paths of the mappings that were fully processed (reached the
code-migration step and had their outcome row written). -/
structure RunState where
  summary_file : Option (List (List String))
  migrated : List String
deriving DecidableEq

/-- One iteration of the mapping loop in repomigration.py main (lines
198-238): invalid lines are logged and skipped with no ledger row; a
failed GitLab fetch writes a "failed" row and continues; then the
destination repo is resolved or created — `none` there is an uncaught
exception, returned as `none` here; finally `migrate_code` runs inside
try/except and a row with "success" or "failed" is written. -/
def processMapping (m : Mapping) (e : MappingEnv) (st : RunState) : Option RunState :=
  if m.valid = false then
    some st
  else if e.glFetchOk = false then
    some { st with summary_file := write_migration_summary st.summary_file m.gitlab_project_path m.github_target "failed" }
  else
    match (resolve_or_create e).2 with
    | none => none
    | some _ =>
        let status := if e.migrateCodeOk then "success" else "failed"
        some { summary_file := write_migration_summary st.summary_file m.gitlab_project_path m.github_target status
               migrated := st.migrated ++ [m.gitlab_project_path] }

/-- Embeds the batch loop of repomigration.py main (lines 198-238): the
mappings are processed in order, each paired with the outcomes of its
external calls; an uncaught exception from `processMapping` aborts the
loop — the state so far is kept (rows already written remain on disk) but
the remaining mappings are not processed, and the second component
records whether the loop ran to completion. -/
def main_loop : List (Mapping × MappingEnv) → RunState → RunState × Bool
  | [], st => (st, true)
  | (m, e) :: rest, st =>
      match processMapping m e st with
      | some st2 => main_loop rest st2
      | none => (st, false)

/-- An empty destination repository with no branches. -/
def emptyRepo : GHRepo :=
  { labels := [], milestones := [], issues := [], pulls := [], branches := [] }

/-- Concrete source project for the claim 1 witness: one label whose name
already exists in the destination with a different color. -/
def projDedup : GLProject :=
  { labels := [{ name := "bug", color := "#00FF00", description := some "other" }]
    milestones := []
    issues := []
    mergerequests := [] }

/-- Concrete destination for the claim 1 witness: already holds a label
named "bug" with a different color. -/
def repoDedup : GHRepo :=
  { labels := [{ name := "bug", color := "FF0000", description := "" }]
    milestones := [], issues := [], pulls := [], branches := [] }

/-- The source label of `projDedup`. -/
def lblDedup : GLLabel :=
  { name := "bug", color := "#00FF00", description := some "other" }

/-- Concrete source project for the claim 2 witness, with one milestone,
issue and merge request per mapped state pair. -/
def projStates : GLProject :=
  { labels := []
    milestones := [{ title := "v1", description := none, state := "active" },
                   { title := "v2", description := none, state := "closed" }]
    issues := [{ title := "i1", description := none, labels := [], state := "opened" },
               { title := "i2", description := none, labels := [], state := "closed" }]
    mergerequests := [{ title := "m1", description := none, iid := 1,
                        source_branch := "main", target_branch := "main", state := "merged" }] }

/-- The active milestone of `projStates`. -/
def msActive : GLMilestone :=
  { title := "v1", description := none, state := "active" }

/-- Destination repository for the claim 2 witness, holding the branch the
merge request needs. -/
def repoStates : GHRepo :=
  { labels := [], milestones := [], issues := [], pulls := [], branches := ["main"] }

/-- Environment in which the destination repo neither exists nor can be
created under the organization or the personal account, while everything
else succeeds. -/
def envBothCreatesFail : MappingEnv :=
  { glFetchOk := true, ghRepoExists := false, orgCreateOk := false,
    userCreateOk := false, migrateCodeOk := true }

/-- Fully succeeding per-mapping environment. -/
def envAllOk : MappingEnv :=
  { glFetchOk := true, ghRepoExists := true, orgCreateOk := true,
    userCreateOk := true, migrateCodeOk := true }

/-- Environment whose GitLab project fetch fails, everything else fine. -/
def envFetchFail : MappingEnv :=
  { glFetchOk := false, ghRepoExists := true, orgCreateOk := true,
    userCreateOk := true, migrateCodeOk := true }

/-- First mapping of the claim 3 counterexample batch. -/
def mapOne : Mapping :=
  { valid := true, gitlab_project_path := "g/one", github_target := "org/one" }

/-- Second mapping of the claim 3 counterexample batch. -/
def mapTwo : Mapping :=
  { valid := true, gitlab_project_path := "g/two", github_target := "org/two" }

/-- Mapping used by the claim 3 amended witness. -/
def mapW : Mapping :=
  { valid := true, gitlab_project_path := "w/one", github_target := "wo/one" }

/-- Mappings of the claim 7 three-element batch. -/
def mapA : Mapping :=
  { valid := true, gitlab_project_path := "gA", github_target := "o/a" }

/-- Second mapping of the claim 7 batch. -/
def mapB : Mapping :=
  { valid := true, gitlab_project_path := "gB", github_target := "o/b" }

/-- Third mapping of the claim 7 batch. -/
def mapC : Mapping :=
  { valid := true, gitlab_project_path := "gC", github_target := "o/c" }

/-- Destination repository for the claim 6 witness: only "main" exists. -/
def repoMainOnly : GHRepo :=
  { labels := [], milestones := [], issues := [], pulls := [], branches := ["main"] }

/-- The spec scenario merge request: its source branch "feat" is missing
from the destination. -/
def mrFixX : GLMergeRequest :=
  { title := "Fix X", description := none, iid := 7,
    source_branch := "feat", target_branch := "main", state := "merged" }

/-- A merge request whose branches do exist in the destination. -/
def mrAddY : GLMergeRequest :=
  { title := "Add Y", description := some "d", iid := 8,
    source_branch := "main", target_branch := "main", state := "merged" }

/-- Ledger entries for the claim 8 witness: the same mapping twice. -/
def entriesTwice : List (String × String × String) :=
  [("g/a", "o/a", "success"), ("g/a", "o/a", "success")]

/-- Label whose color contains a non-leading marker character, for the
claim 9 counterexample. -/
def lblInnerMarker : GLLabel :=
  { name := "x", color := "AB#CD", description := none }

/-- Source project of the claim 9 counterexample. -/
def projInnerMarker : GLProject :=
  { labels := [lblInnerMarker], milestones := [], issues := [], mergerequests := [] }

/-- Label with the spec example color, for the claim 9 witness. -/
def lblHexColor : GLLabel :=
  { name := "bug", color := "#1F2A3B", description := none }

/-- Source project of the claim 9 witness. -/
def projHexColor : GLProject :=
  { labels := [lblHexColor], milestones := [], issues := [], mergerequests := [] }

/-- Source project with duplicate natural keys for the claim 10 witness:
two labels named "dup" and two issues titled "di". -/
def projDup : GLProject :=
  { labels := [{ name := "dup", color := "#111111", description := none },
               { name := "dup", color := "#222222", description := none }]
    milestones := []
    issues := [{ title := "di", description := none, labels := [], state := "opened" },
               { title := "di", description := none, labels := [], state := "closed" }]
    mergerequests := [] }

/-- Closed form of a creation loop: the destination listing is extended,
in source order, by exactly the entities the step function creates. -/
theorem createLoop_eq {α β : Type} (step : α → Option β) (src : List α) (acc : List β) :
    createLoop step src acc = acc ++ src.filterMap step := by
  induction src generalizing acc with
  | nil => simp [createLoop]
  | cons x rest ih =>
      cases h : step x with
      | none => simp [createLoop, h, ih]
      | some y => simp [createLoop, h, ih]

/-- Labels after `migrate_metadata`: the original listing plus the
creations decided against the label names listed once at the start. -/
theorem migrate_metadata_labels (p : GLProject) (r : GHRepo) :
    (migrate_metadata p r).1.labels
      = r.labels ++ p.labels.filterMap (labelStep (r.labels.map GHLabel.name)) := by
  simp [migrate_metadata, createLoop_eq]

/-- Milestones after `migrate_metadata`. -/
theorem migrate_metadata_milestones (p : GLProject) (r : GHRepo) :
    (migrate_metadata p r).1.milestones
      = r.milestones ++ p.milestones.filterMap (milestoneStep (r.milestones.map GHMilestone.title)) := by
  simp [migrate_metadata, createLoop_eq]

/-- Issues after `migrate_metadata`. -/
theorem migrate_metadata_issues (p : GLProject) (r : GHRepo) :
    (migrate_metadata p r).1.issues
      = r.issues ++ p.issues.filterMap (issueStep (r.issues.map GHIssue.title)) := by
  simp [migrate_metadata, createLoop_eq]

/-- Pull requests after `migrate_metadata`: the membership test uses the
pull titles listed once at the start, and creation uses the destination
branch set, which the reconciler never modifies. -/
theorem migrate_metadata_pulls (p : GLProject) (r : GHRepo) :
    (migrate_metadata p r).1.pulls
      = r.pulls ++ p.mergerequests.filterMap (pullStep (r.pulls.map GHPull.title) r.branches) := by
  simp [migrate_metadata, createLoop_eq]

/-- The reconciler never changes the destination branch set. -/
theorem migrate_metadata_branches (p : GLProject) (r : GHRepo) :
    (migrate_metadata p r).1.branches = r.branches := by
  simp [migrate_metadata]

/-- The summary of a run in which no group-level listing call failed. -/
theorem migrate_metadata_summary (p : GLProject) (r : GHRepo) :
    (migrate_metadata p r).2
      = { labels := "completed", milestones := "completed",
          issues := "completed", merge_requests := "completed" } := rfl

/-- A successfully created pull request carries the merge request title
and the translated state. -/
theorem createPull_eq_some {branches : List String} {mr : GLMergeRequest} {pr : GHPull}
    (h : createPull branches mr = some pr) :
    pr.title = mr.title ∧
      pr.state = (if mr.state ∈ (["closed", "merged"] : List String) then "closed" else "open") := by
  unfold createPull at h
  split at h
  · injection h with h2
    subst h2
    exact ⟨rfl, rfl⟩
  · exact absurd h (by simp)

/-- A merge request with a missing head or base branch is not created. -/
theorem createPull_none_of_missing_branch (branches : List String) (mr : GLMergeRequest)
    (h : mr.source_branch ∉ branches ∨ mr.target_branch ∉ branches) :
    createPull branches mr = none := by
  unfold createPull
  rw [if_neg]
  rintro ⟨h1, h2⟩
  rcases h with h | h
  · exact h h1
  · exact h h2

/-- After one run, every source label name is present in the destination
listing, so a second run skips it. -/
theorem labelStep_second_run (p : GLProject) (r : GHRepo) (l : GLLabel) (hl : l ∈ p.labels) :
    labelStep ((migrate_metadata p r).1.labels.map GHLabel.name) l = none := by
  have hmem : l.name ∈ (migrate_metadata p r).1.labels.map GHLabel.name := by
    rw [migrate_metadata_labels, List.map_append]
    by_cases hE : l.name ∈ r.labels.map GHLabel.name
    · exact List.mem_append_left _ hE
    · refine List.mem_append_right _ ?_
      refine List.mem_map.mpr ⟨createLabel l, ?_, rfl⟩
      exact List.mem_filterMap.mpr ⟨l, hl, by simp [labelStep, hE]⟩
  simp [labelStep, hmem]

/-- After one run, every source milestone title is present in the
destination listing, so a second run skips it. -/
theorem milestoneStep_second_run (p : GLProject) (r : GHRepo) (ms : GLMilestone)
    (hms : ms ∈ p.milestones) :
    milestoneStep ((migrate_metadata p r).1.milestones.map GHMilestone.title) ms = none := by
  have hmem : ms.title ∈ (migrate_metadata p r).1.milestones.map GHMilestone.title := by
    rw [migrate_metadata_milestones, List.map_append]
    by_cases hE : ms.title ∈ r.milestones.map GHMilestone.title
    · exact List.mem_append_left _ hE
    · refine List.mem_append_right _ ?_
      refine List.mem_map.mpr ⟨createMilestone ms, ?_, rfl⟩
      exact List.mem_filterMap.mpr ⟨ms, hms, by simp [milestoneStep, hE]⟩
  simp [milestoneStep, hmem]

/-- After one run, every source issue title is present in the destination
listing, so a second run skips it. -/
theorem issueStep_second_run (p : GLProject) (r : GHRepo) (i : GLIssue) (hi : i ∈ p.issues) :
    issueStep ((migrate_metadata p r).1.issues.map GHIssue.title) i = none := by
  have hmem : i.title ∈ (migrate_metadata p r).1.issues.map GHIssue.title := by
    rw [migrate_metadata_issues, List.map_append]
    by_cases hE : i.title ∈ r.issues.map GHIssue.title
    · exact List.mem_append_left _ hE
    · refine List.mem_append_right _ ?_
      refine List.mem_map.mpr ⟨createIssue i, ?_, rfl⟩
      exact List.mem_filterMap.mpr ⟨i, hi, by simp [issueStep, hE]⟩
  simp [issueStep, hmem]

/-- After one run, every source merge request is either already titled in
the destination listing, was created by the run, or fails creation again
(its branches are still missing), so a second run creates nothing. -/
theorem pullStep_second_run (p : GLProject) (r : GHRepo) (mr : GLMergeRequest)
    (hmr : mr ∈ p.mergerequests) :
    pullStep ((migrate_metadata p r).1.pulls.map GHPull.title)
      ((migrate_metadata p r).1.branches) mr = none := by
  rw [migrate_metadata_branches]
  by_cases hE : mr.title ∈ (migrate_metadata p r).1.pulls.map GHPull.title
  · simp [pullStep, hE]
  · rw [pullStep, if_neg hE]
    cases hcp : createPull r.branches mr with
    | none => rfl
    | some pr =>
        exfalso
        apply hE
        rw [migrate_metadata_pulls, List.map_append]
        refine List.mem_append_right _ ?_
        refine List.mem_map.mpr ⟨pr, ?_, (createPull_eq_some hcp).1⟩
        refine List.mem_filterMap.mpr ⟨mr, hmr, ?_⟩
        have hE0 : mr.title ∉ r.pulls.map GHPull.title := fun hmem =>
          hE (by rw [migrate_metadata_pulls, List.map_append]; exact List.mem_append_left _ hmem)
        simp [pullStep, hE0, hcp]

/-- No label in a destination listing has a name outside that listing's
name set. -/
theorem countP_labels_of_not_mem (ls : List GHLabel) (t : String)
    (ht : t ∉ ls.map GHLabel.name) :
    ls.countP (fun x => x.name == t) = 0 := by
  rw [List.countP_eq_zero]
  intro x hx hbeq
  exact ht (List.mem_map.mpr ⟨x, hx, by simpa using hbeq⟩)

/-- No issue in a destination listing has a title outside that listing's
title set. -/
theorem countP_issues_of_not_mem (ls : List GHIssue) (t : String)
    (ht : t ∉ ls.map GHIssue.title) :
    ls.countP (fun x => x.title == t) = 0 := by
  rw [List.countP_eq_zero]
  intro x hx hbeq
  exact ht (List.mem_map.mpr ⟨x, hx, by simpa using hbeq⟩)

/-- The labels loop never creates an entity whose name was in the listing
computed at the start of the loop. -/
theorem labels_created_count_mem (existing : List String) (src : List GLLabel) (t : String)
    (ht : t ∈ existing) :
    (src.filterMap (labelStep existing)).countP (fun x => x.name == t) = 0 := by
  rw [List.countP_eq_zero]
  intro x hx hbeq
  obtain ⟨l, hl, hstep⟩ := List.mem_filterMap.mp hx
  unfold labelStep at hstep
  split at hstep
  · exact absurd hstep (by simp)
  · rename_i hE
    injection hstep with h2
    have hname : x.name = t := by simpa using hbeq
    apply hE
    rw [← h2] at hname
    have : l.name = t := hname
    rw [this]
    exact ht

/-- The milestones loop never creates an entity whose title was in the
listing computed at the start of the loop. -/
theorem milestones_created_count_mem (existing : List String) (src : List GLMilestone) (t : String)
    (ht : t ∈ existing) :
    (src.filterMap (milestoneStep existing)).countP (fun x => x.title == t) = 0 := by
  rw [List.countP_eq_zero]
  intro x hx hbeq
  obtain ⟨ms, hms, hstep⟩ := List.mem_filterMap.mp hx
  unfold milestoneStep at hstep
  split at hstep
  · exact absurd hstep (by simp)
  · rename_i hE
    injection hstep with h2
    have htitle : x.title = t := by simpa using hbeq
    apply hE
    rw [← h2] at htitle
    have : ms.title = t := htitle
    rw [this]
    exact ht

/-- The issues loop never creates an entity whose title was in the listing
computed at the start of the loop. -/
theorem issues_created_count_mem (existing : List String) (src : List GLIssue) (t : String)
    (ht : t ∈ existing) :
    (src.filterMap (issueStep existing)).countP (fun x => x.title == t) = 0 := by
  rw [List.countP_eq_zero]
  intro x hx hbeq
  obtain ⟨i, hi, hstep⟩ := List.mem_filterMap.mp hx
  unfold issueStep at hstep
  split at hstep
  · exact absurd hstep (by simp)
  · rename_i hE
    injection hstep with h2
    have htitle : x.title = t := by simpa using hbeq
    apply hE
    rw [← h2] at htitle
    have : i.title = t := htitle
    rw [this]
    exact ht

/-- The merge-request loop never creates an entity whose title was in the
listing computed at the start of the loop. -/
theorem pulls_created_count_mem (existing branches : List String) (src : List GLMergeRequest)
    (t : String) (ht : t ∈ existing) :
    (src.filterMap (pullStep existing branches)).countP (fun x => x.title == t) = 0 := by
  rw [List.countP_eq_zero]
  intro x hx hbeq
  obtain ⟨mr, hmr, hstep⟩ := List.mem_filterMap.mp hx
  unfold pullStep at hstep
  split at hstep
  · exact absurd hstep (by simp)
  · rename_i hE
    have htitle := (createPull_eq_some hstep).1
    have hxt : x.title = t := by simpa using hbeq
    apply hE
    have hmt : mr.title = t := by rw [← htitle]; exact hxt
    rw [hmt]
    exact ht

/-- For a name absent from the initial listing, the labels loop creates
one entity per source occurrence of that name. -/
theorem labels_created_count_fresh (existing : List String) (src : List GLLabel) (t : String)
    (ht : t ∉ existing) :
    (src.filterMap (labelStep existing)).countP (fun x => x.name == t)
      = src.countP (fun l => l.name == t) := by
  induction src with
  | nil => rfl
  | cons l rest ih =>
      by_cases hE : l.name ∈ existing
      · have hneq : (l.name == t) = false := by
          refine beq_eq_false_iff_ne.mpr ?_
          intro hEq
          exact ht (hEq ▸ hE)
        simp [labelStep, hE, List.filterMap_cons, List.countP_cons, hneq, ih]
      · simp [labelStep, hE, List.filterMap_cons, List.countP_cons, createLabel, ih]

/-- For a title absent from the initial listing, the issues loop creates
one entity per source occurrence of that title. -/
theorem issues_created_count_fresh (existing : List String) (src : List GLIssue) (t : String)
    (ht : t ∉ existing) :
    (src.filterMap (issueStep existing)).countP (fun x => x.title == t)
      = src.countP (fun i => i.title == t) := by
  induction src with
  | nil => rfl
  | cons i rest ih =>
      by_cases hE : i.title ∈ existing
      · have hneq : (i.title == t) = false := by
          refine beq_eq_false_iff_ne.mpr ?_
          intro hEq
          exact ht (hEq ▸ hE)
        simp [issueStep, hE, List.filterMap_cons, List.countP_cons, hneq, ih]
      · simp [issueStep, hE, List.filterMap_cons, List.countP_cons, createIssue, ih]

/-- When every git command succeeds, the whole sequence is invoked. -/
theorem runSteps_of_all (env : GitCmd → Bool) (steps : List GitCmd) (h : ∀ c, env c = true) :
    runSteps env steps = (steps, true) := by
  induction steps with
  | nil => rfl
  | cons c rest ih => simp [runSteps, h c, ih]

/-- The sequence completes exactly when every command in it succeeds. -/
theorem runSteps_snd_all (env : GitCmd → Bool) (steps : List GitCmd) :
    (runSteps env steps).2 = steps.all env := by
  induction steps with
  | nil => rfl
  | cons c rest ih =>
      cases h : env c with
      | true => simp [runSteps, h, ih, List.all_cons]
      | false => simp [runSteps, h, List.all_cons]

/-- Appending entries to an already existing ledger file adds exactly the
data rows, with no further header. -/
theorem appendAll_some (entries : List (String × String × String)) (rows : List (List String)) :
    appendAll entries (some rows) = some (rows ++ entries.map ledgerRow) := by
  induction entries generalizing rows with
  | nil => simp [appendAll]
  | cons e rest ih =>
      have h1 : appendAll (e :: rest) (some rows)
          = appendAll rest (some (rows ++ [ledgerRow e])) := rfl
      rw [h1, ih]
      simp

/-- C1: re-running the reconciler with unchanged source data on the
destination produced by a first run creates zero additional entities in
every entity kind (the whole destination state is a fixpoint), and a
source entity whose natural key (name for labels, title for
milestones/issues/merge requests) already matches an existing destination
entity is never recreated — the number of destination entities carrying
that key is unchanged, whatever its other fields are. -/
theorem claim1 (p : GLProject) (r : GHRepo) :
    (migrate_metadata p (migrate_metadata p r).1).1 = (migrate_metadata p r).1 ∧
    (∀ l ∈ p.labels, l.name ∈ r.labels.map GHLabel.name →
      ((migrate_metadata p r).1.labels.countP fun x => x.name == l.name)
        = r.labels.countP fun x => x.name == l.name) ∧
    (∀ ms ∈ p.milestones, ms.title ∈ r.milestones.map GHMilestone.title →
      ((migrate_metadata p r).1.milestones.countP fun x => x.title == ms.title)
        = r.milestones.countP fun x => x.title == ms.title) ∧
    (∀ i ∈ p.issues, i.title ∈ r.issues.map GHIssue.title →
      ((migrate_metadata p r).1.issues.countP fun x => x.title == i.title)
        = r.issues.countP fun x => x.title == i.title) ∧
    (∀ mr ∈ p.mergerequests, mr.title ∈ r.pulls.map GHPull.title →
      ((migrate_metadata p r).1.pulls.countP fun x => x.title == mr.title)
        = r.pulls.countP fun x => x.title == mr.title) := by
  refine ⟨?_, ?_, ?_, ?_, ?_⟩
  · apply GHRepo.ext
    · rw [migrate_metadata_labels p (migrate_metadata p r).1,
          List.filterMap_eq_nil_iff.mpr (fun l hl => labelStep_second_run p r l hl)]
      simp
    · rw [migrate_metadata_milestones p (migrate_metadata p r).1,
          List.filterMap_eq_nil_iff.mpr (fun ms hms => milestoneStep_second_run p r ms hms)]
      simp
    · rw [migrate_metadata_issues p (migrate_metadata p r).1,
          List.filterMap_eq_nil_iff.mpr (fun i hi => issueStep_second_run p r i hi)]
      simp
    · rw [migrate_metadata_pulls p (migrate_metadata p r).1,
          List.filterMap_eq_nil_iff.mpr (fun mr hmr => pullStep_second_run p r mr hmr)]
      simp
    · rw [migrate_metadata_branches, migrate_metadata_branches]
  · intro l _hl hmem
    rw [migrate_metadata_labels, List.countP_append,
        labels_created_count_mem _ _ _ hmem]
    simp
  · intro ms _hms hmem
    rw [migrate_metadata_milestones, List.countP_append,
        milestones_created_count_mem _ _ _ hmem]
    simp
  · intro i _hi hmem
    rw [migrate_metadata_issues, List.countP_append,
        issues_created_count_mem _ _ _ hmem]
    simp
  · intro mr _hmr hmem
    rw [migrate_metadata_pulls, List.countP_append,
        pulls_created_count_mem _ _ _ _ hmem]
    simp

/-- C1 witness: concrete instantiation at a project whose label "bug"
already exists in the destination with a different color. -/
theorem claim1_witness :
    (migrate_metadata projDedup (migrate_metadata projDedup repoDedup).1).1
        = (migrate_metadata projDedup repoDedup).1 ∧
    ((migrate_metadata projDedup repoDedup).1.labels.countP fun x => x.name == "bug")
        = repoDedup.labels.countP fun x => x.name == "bug" :=
  ⟨(claim1 projDedup repoDedup).1,
   (claim1 projDedup repoDedup).2.1 lblDedup (by decide) (by decide)⟩

/-- C2: the state vocabulary is translated exactly per the table — active
to open and closed to closed for milestones; opened to open, closed to
closed and merged to closed for issues and pull requests — where issue
source states range over the vocabulary opened/closed declared by the
source platform; the final three conjuncts tie the create functions to
the entities the reconciler actually adds. -/
theorem claim2 (p : GLProject) (r : GHRepo)
    (hiss : ∀ i ∈ p.issues, i.state = "opened" ∨ i.state = "closed") :
    (∀ ms ∈ p.milestones,
        (ms.state = "active" → (createMilestone ms).state = "open") ∧
        (ms.state = "closed" → (createMilestone ms).state = "closed")) ∧
    (∀ i ∈ p.issues,
        (i.state = "opened" → (createIssue i).state = "open") ∧
        (i.state = "closed" → (createIssue i).state = "closed") ∧
        (i.state = "merged" → (createIssue i).state = "closed")) ∧
    (∀ mr ∈ p.mergerequests, ∀ pr : GHPull, createPull r.branches mr = some pr →
        (mr.state = "opened" → pr.state = "open") ∧
        (mr.state = "closed" → pr.state = "closed") ∧
        (mr.state = "merged" → pr.state = "closed")) ∧
    ((migrate_metadata p r).1.milestones
        = r.milestones ++ p.milestones.filterMap (milestoneStep (r.milestones.map GHMilestone.title))) ∧
    ((migrate_metadata p r).1.issues
        = r.issues ++ p.issues.filterMap (issueStep (r.issues.map GHIssue.title))) ∧
    ((migrate_metadata p r).1.pulls
        = r.pulls ++ p.mergerequests.filterMap (pullStep (r.pulls.map GHPull.title) r.branches)) := by
  refine ⟨?_, ?_, ?_, migrate_metadata_milestones p r, migrate_metadata_issues p r,
    migrate_metadata_pulls p r⟩
  · intro ms _hms
    constructor
    · intro h
      simp [createMilestone, h]
    · intro h
      simp [createMilestone, h]
  · intro i hi
    refine ⟨?_, ?_, ?_⟩
    · intro h
      simp [createIssue, h]
    · intro h
      simp [createIssue, h]
    · intro h
      rcases hiss i hi with h2 | h2 <;> (rw [h] at h2; exact absurd h2 (by decide))
  · intro mr _hmr pr hpr
    have hst := (createPull_eq_some hpr).2
    refine ⟨?_, ?_, ?_⟩
    · intro h
      rw [hst, h]
      simp
    · intro h
      rw [hst, h]
      simp
    · intro h
      rw [hst, h]
      simp

/-- C2 witness: the active milestone of the concrete project is created
open. -/
theorem claim2_witness : (createMilestone msActive).state = "open" :=
  ((claim2 projStates repoStates (by decide)).1 msActive (by decide)).1 rfl

/-- C4: with every git command succeeding, force mode invokes exactly one
push (a mirror push) and incremental mode exactly two (all branches, then
all tags, in that order), and in both modes the full command sequence is
clone-mirror, then remote-add, then the push or pushes. -/
theorem claim4 (env : GitCmd → Bool) (h : ∀ c, env c = true) :
    (migrate_code env true).trace
        = [GitCmd.clone_mirror, GitCmd.remote_add, GitCmd.push_mirror] ∧
    (migrate_code env false).trace
        = [GitCmd.clone_mirror, GitCmd.remote_add, GitCmd.push_all, GitCmd.push_tags] ∧
    ((migrate_code env true).trace.filter GitCmd.isPush).length = 1 ∧
    ((migrate_code env false).trace.filter GitCmd.isPush).length = 2 := by
  have h1 : (migrate_code env true).trace = gitSequence true := by
    simp [migrate_code, runSteps_of_all env _ h]
  have h2 : (migrate_code env false).trace = gitSequence false := by
    simp [migrate_code, runSteps_of_all env _ h]
  refine ⟨by rw [h1]; rfl, by rw [h2]; rfl, by rw [h1]; rfl, by rw [h2]; rfl⟩

/-- C4 witness: concrete instantiation with the always-succeeding
environment. -/
theorem claim4_witness :
    (migrate_code (fun _ => true) true).trace
        = [GitCmd.clone_mirror, GitCmd.remote_add, GitCmd.push_mirror] ∧
    (migrate_code (fun _ => true) false).trace
        = [GitCmd.clone_mirror, GitCmd.remote_add, GitCmd.push_all, GitCmd.push_tags] ∧
    ((migrate_code (fun _ => true) true).trace.filter GitCmd.isPush).length = 1 ∧
    ((migrate_code (fun _ => true) false).trace.filter GitCmd.isPush).length = 2 :=
  claim4 (fun _ => true) (fun _ => rfl)

/-- C5: after migrate_code returns or raises — for every combination of
git command outcomes, i.e. on the success path and on every failure path
(clone fails, remote-add fails, either push fails) — the temporary
workspace directory no longer exists; moreover the transfer succeeds
exactly when every command of the selected sequence succeeded. -/
theorem claim5 (env : GitCmd → Bool) (force : Bool) :
    (migrate_code env force).tmpDirExists = false ∧
    (migrate_code env force).ok = (gitSequence force).all env :=
  ⟨rfl, runSteps_snd_all env (gitSequence force)⟩

/-- C6: a merge request whose creation fails per-item (its head or base
branch is missing from the destination) is skipped without affecting
anything else — the reconciler's result is exactly the result on the
source listing with that item removed — and the merge-request group still
reports "completed". -/
theorem claim6 (r : GHRepo) (ls : List GLLabel) (ms : List GLMilestone) (iss : List GLIssue)
    (pre post : List GLMergeRequest) (bad : GLMergeRequest)
    (h : bad.source_branch ∉ r.branches ∨ bad.target_branch ∉ r.branches) :
    (migrate_metadata ⟨ls, ms, iss, pre ++ bad :: post⟩ r).1
        = (migrate_metadata ⟨ls, ms, iss, pre ++ post⟩ r).1 ∧
    (migrate_metadata ⟨ls, ms, iss, pre ++ bad :: post⟩ r).2.merge_requests = "completed" := by
  constructor
  · apply GHRepo.ext
    · simp [migrate_metadata_labels]
    · simp [migrate_metadata_milestones]
    · simp [migrate_metadata_issues]
    · have hbad : pullStep (r.pulls.map GHPull.title) r.branches bad = none := by
        unfold pullStep
        rw [createPull_none_of_missing_branch r.branches bad h]
        simp
      rw [migrate_metadata_pulls, migrate_metadata_pulls]
      simp [List.filterMap_append, List.filterMap_cons, hbad]
    · rw [migrate_metadata_branches, migrate_metadata_branches]
  · rfl

/-- C6 witness: the spec scenario — merge request "Fix X" targeting the
missing branch "feat" is skipped, the following merge request is still
processed, and the group reports "completed". -/
theorem claim6_witness :
    (migrate_metadata ⟨[], [], [], [mrFixX, mrAddY]⟩ repoMainOnly).1
        = (migrate_metadata ⟨[], [], [], [mrAddY]⟩ repoMainOnly).1 ∧
    (migrate_metadata ⟨[], [], [], [mrFixX, mrAddY]⟩ repoMainOnly).2.merge_requests
        = "completed" :=
  claim6 repoMainOnly [] [] [] [] [mrAddY] mrFixX (by decide)

/-- C3 counterexample: in a two-mapping batch whose first mapping has a
destination repository that is neither found nor creatable under the
organization or the personal account, the run aborts — no ledger row is
written and the second mapping is never processed — although the same
second mapping, run alone, is fully processed and ledgered. This refutes
the claim that the failure of both creation attempts is fatal for the
current mapping only and not for the batch. -/
theorem claim3_counterexample :
    main_loop [(mapOne, envBothCreatesFail), (mapTwo, envAllOk)]
        { summary_file := none, migrated := [] }
      = ({ summary_file := none, migrated := [] }, false) ∧
    main_loop [(mapTwo, envAllOk)] { summary_file := none, migrated := [] }
      = ({ summary_file := some [headerRow, ["g/two", "org/two", "success"]],
           migrated := ["g/two"] }, true) :=
  ⟨rfl, rfl⟩

/-- C3 (amended): when the lookup fails, repomigration.py attempts an
organization-scope creation first and falls back to the personal account,
and the resolution comes back empty only if lookup, organization creation
and personal creation all fail — but that failure is an uncaught
exception that aborts the whole batch, not only the current mapping;
moreover the metadata.py variant of the resolver never attempts an
organization-scope creation at all, falling back directly to the personal
account. -/
theorem claim3 :
    (∀ env : MappingEnv, env.ghRepoExists = false →
        (resolve_or_create env).1
          = [RepoAttempt.lookup, RepoAttempt.orgCreate]
              ++ (if env.orgCreateOk then [] else [RepoAttempt.userCreate])) ∧
    (∀ env : MappingEnv,
        (resolve_or_create env).2 = none
          ↔ env.ghRepoExists = false ∧ env.orgCreateOk = false ∧ env.userCreateOk = false) ∧
    (∀ (m : Mapping) (e : MappingEnv) (rest : List (Mapping × MappingEnv)) (st : RunState),
        m.valid = true → e.glFetchOk = true → (resolve_or_create e).2 = none →
        main_loop ((m, e) :: rest) st = (st, false)) ∧
    (∀ env : MappingEnv,
        (resolve_or_create_metadata env).1
          = if env.ghRepoExists then [RepoAttempt.lookup]
            else [RepoAttempt.lookup, RepoAttempt.userCreate]) := by
  refine ⟨?_, ?_, ?_, ?_⟩
  · intro env h
    obtain ⟨gf, ge, go, gu, gm⟩ := env
    subst h
    cases go <;> cases gu <;> rfl
  · intro env
    obtain ⟨gf, ge, go, gu, gm⟩ := env
    cases ge <;> cases go <;> cases gu <;> simp [resolve_or_create]
  · intro m e rest st hv hf hr
    simp [main_loop, processMapping, hv, hf, hr]
  · intro env
    obtain ⟨gf, ge, go, gu, gm⟩ := env
    cases ge <;> cases gu <;> rfl

/-- C3 witness: a single mapping whose destination can be neither found
nor created anywhere aborts the loop with the state untouched. -/
theorem claim3_witness :
    main_loop [(mapW, envBothCreatesFail)] { summary_file := none, migrated := [] }
      = ({ summary_file := none, migrated := [] }, false) :=
  claim3.2.2.1 mapW envBothCreatesFail [] { summary_file := none, migrated := [] } rfl rfl rfl

/-- C7 counterexample: in a three-mapping batch where the second mapping's
destination resolution fails under both scopes, the third mapping is not
processed and receives no ledger row — the batch stops after the first
mapping's row. This refutes the claim that the failure of any one mapping
never prevents subsequent mappings from being processed and ledgered. -/
theorem claim7_counterexample :
    main_loop [(mapA, envAllOk), (mapB, envBothCreatesFail), (mapC, envAllOk)]
        { summary_file := none, migrated := [] }
      = ({ summary_file := some [headerRow, ["gA", "o/a", "success"]],
           migrated := ["gA"] }, false) :=
  rfl

/-- C7 (amended): the failures the orchestrator loop catches — an invalid
mapping line, a failed source-project fetch, a failed code transfer — do
not prevent any subsequent mapping from being processed and ledgered; a
destination-resolution failure however aborts the batch. In particular,
for three mappings whose destination resolutions succeed and where the
second mapping's source fetch fails, the first and third are fully
processed and one ledger row is written for each of the three. -/
theorem claim7 :
    (∀ (m : Mapping) (e : MappingEnv) (rest : List (Mapping × MappingEnv)) (st : RunState),
        m.valid = false →
        main_loop ((m, e) :: rest) st = main_loop rest st) ∧
    (∀ (m : Mapping) (e : MappingEnv) (rest : List (Mapping × MappingEnv)) (st : RunState),
        m.valid = true → e.glFetchOk = false →
        main_loop ((m, e) :: rest) st
          = main_loop rest
              { st with summary_file :=
                  write_migration_summary st.summary_file m.gitlab_project_path m.github_target "failed" }) ∧
    (∀ (m : Mapping) (e : MappingEnv) (rest : List (Mapping × MappingEnv)) (st : RunState),
        m.valid = true → e.glFetchOk = true → ((resolve_or_create e).2).isSome = true →
        e.migrateCodeOk = false →
        main_loop ((m, e) :: rest) st
          = main_loop rest
              { summary_file :=
                  write_migration_summary st.summary_file m.gitlab_project_path m.github_target "failed"
                migrated := st.migrated ++ [m.gitlab_project_path] }) ∧
    (∀ (m1 m2 m3 : Mapping) (e1 e2 e3 : MappingEnv),
        m1.valid = true → e1.glFetchOk = true → ((resolve_or_create e1).2).isSome = true →
        e1.migrateCodeOk = true →
        m2.valid = true → e2.glFetchOk = false →
        m3.valid = true → e3.glFetchOk = true → ((resolve_or_create e3).2).isSome = true →
        e3.migrateCodeOk = true →
        main_loop [(m1, e1), (m2, e2), (m3, e3)] { summary_file := none, migrated := [] }
          = ({ summary_file := some [headerRow,
                 [m1.gitlab_project_path, m1.github_target, "success"],
                 [m2.gitlab_project_path, m2.github_target, "failed"],
                 [m3.gitlab_project_path, m3.github_target, "success"]],
               migrated := [m1.gitlab_project_path, m3.gitlab_project_path] }, true)) := by
  refine ⟨?_, ?_, ?_, ?_⟩
  · intro m e rest st hv
    simp [main_loop, processMapping, hv]
  · intro m e rest st hv hf
    simp [main_loop, processMapping, hv, hf]
  · intro m e rest st hv hf hsome hmig
    obtain ⟨sc, hsc⟩ := Option.isSome_iff_exists.mp hsome
    simp [main_loop, processMapping, hv, hf, hsc, hmig]
  · intro m1 m2 m3 e1 e2 e3 h1v h1f h1r h1c h2v h2f h3v h3f h3r h3c
    obtain ⟨sc1, hsc1⟩ := Option.isSome_iff_exists.mp h1r
    obtain ⟨sc3, hsc3⟩ := Option.isSome_iff_exists.mp h3r
    simp [main_loop, processMapping, h1v, h1f, hsc1, h1c, h2v, h2f, h3v, h3f, hsc3, h3c,
      write_migration_summary]

/-- C7 witness: the spec's batch-isolation scenario at concrete mappings —
three mappings, second source fetch fails, three rows written and the
first and third fully processed. -/
theorem claim7_witness :
    main_loop [(mapA, envAllOk), (mapB, envFetchFail), (mapC, envAllOk)]
        { summary_file := none, migrated := [] }
      = ({ summary_file := some [headerRow, ["gA", "o/a", "success"],
             ["gB", "o/b", "failed"], ["gC", "o/c", "success"]],
           migrated := ["gA", "gC"] }, true) :=
  claim7.2.2.2 mapA mapB mapC envAllOk envFetchFail envAllOk
    rfl rfl rfl rfl rfl rfl rfl rfl rfl rfl

/-- C8: starting from a fresh (nonexistent) path, N append calls produce
exactly the header row followed by the N data rows in call order — N+1
lines in total — with the header written only by the first call, the one
that found the file absent; this holds also when the same mapping is
appended twice. -/
theorem claim8 (entries : List (String × String × String)) (h : entries ≠ []) :
    appendAll entries none = some (headerRow :: entries.map ledgerRow) ∧
    (headerRow :: entries.map ledgerRow).length = entries.length + 1 := by
  constructor
  · cases entries with
    | nil => exact absurd rfl h
    | cons e rest =>
        have h1 : appendAll (e :: rest) none
            = appendAll rest (some [headerRow, ledgerRow e]) := rfl
        rw [h1, appendAll_some]
        simp
  · simp

/-- C8 witness: appending the same mapping twice on a fresh path yields a
three-line ledger, header plus two identical rows. -/
theorem claim8_witness :
    appendAll entriesTwice none = some (headerRow :: entriesTwice.map ledgerRow) ∧
    (headerRow :: entriesTwice.map ledgerRow).length = entriesTwice.length + 1 :=
  claim8 entriesTwice (by decide)

/-- C9 counterexample: the label color "AB#CD" has no leading marker
character, yet it is stored as "ABCD", not unchanged — the replace call
removes every marker occurrence, not only a leading one. This refutes the
claim that any source color string without a leading marker is stored
unchanged. -/
theorem claim9_counterexample :
    (migrate_metadata projInnerMarker emptyRepo).1.labels.map GHLabel.color = ["ABCD"] ∧
    lblInnerMarker.color ≠ "ABCD" ∧
    lblInnerMarker.color.data.head? ≠ some '#' :=
  ⟨by decide, by decide, by decide⟩

/-- C9 (amended): when a label is created, every occurrence of the marker
character in the source color is removed — in particular a leading marker
is stripped — and a source color containing no marker character anywhere
is stored unchanged. -/
theorem claim9 (p : GLProject) (r : GHRepo) :
    (∀ gl ∈ p.labels, gl.name ∉ r.labels.map GHLabel.name →
        createLabel gl ∈ (migrate_metadata p r).1.labels) ∧
    (∀ gl : GLLabel, (createLabel gl).color = stripMarker gl.color) ∧
    (∀ s : String, '#' ∉ s.data → stripMarker s = s) ∧
    (∀ rest : List Char, stripMarker (String.mk ('#' :: rest)) = stripMarker (String.mk rest)) := by
  refine ⟨?_, fun gl => rfl, ?_, ?_⟩
  · intro gl hgl hfresh
    rw [migrate_metadata_labels]
    refine List.mem_append_right _ ?_
    exact List.mem_filterMap.mpr ⟨gl, hgl, by simp [labelStep, hfresh]⟩
  · intro s hs
    unfold stripMarker
    have hfil : s.data.filter (fun c => c != '#') = s.data := by
      rw [List.filter_eq_self]
      intro a ha
      exact bne_iff_ne.mpr (fun hEq => hs (hEq ▸ ha))
    rw [hfil]
  · intro rest
    unfold stripMarker
    simp [List.filter_cons]

/-- C9 witness: the spec example color — the label with source color
"#1F2A3B" is created and stored with color "1F2A3B". -/
theorem claim9_witness :
    createLabel lblHexColor ∈ (migrate_metadata projHexColor emptyRepo).1.labels ∧
    (createLabel lblHexColor).color = "1F2A3B" :=
  ⟨(claim9 projHexColor emptyRepo).1 lblHexColor (by decide) (by decide), by decide⟩

/-- C10: the existing-key listing of each kind is taken once, before that
kind's loop, and not refreshed as entities are created: for any natural
key absent from the destination, the run creates one destination entity
per source occurrence of that key — so a key occurring twice in the
source listing yields two destination entities in a single run. -/
theorem claim10 (p : GLProject) (r : GHRepo) :
    (∀ t : String, t ∉ r.labels.map GHLabel.name →
        ((migrate_metadata p r).1.labels.countP fun x => x.name == t)
          = p.labels.countP fun l => l.name == t) ∧
    (∀ t : String, t ∉ r.issues.map GHIssue.title →
        ((migrate_metadata p r).1.issues.countP fun x => x.title == t)
          = p.issues.countP fun i => i.title == t) := by
  constructor
  · intro t ht
    rw [migrate_metadata_labels, List.countP_append,
        countP_labels_of_not_mem r.labels t ht,
        labels_created_count_fresh _ _ _ ht]
    simp
  · intro t ht
    rw [migrate_metadata_issues, List.countP_append,
        countP_issues_of_not_mem r.issues t ht,
        issues_created_count_fresh _ _ _ ht]
    simp

/-- C10 witness: a source project with two labels named "dup" against an
empty destination gains two labels named "dup" in one run. -/
theorem claim10_witness :
    ((migrate_metadata projDup emptyRepo).1.labels.countP fun x => x.name == "dup")
        = (projDup.labels.countP fun l => l.name == "dup") ∧
    ((migrate_metadata projDup emptyRepo).1.labels.countP fun x => x.name == "dup") = 2 :=
  ⟨(claim10 projDup emptyRepo).1 "dup" (by decide), by decide⟩

end GitlabToGithub
